import Mathlib

/-!
Verification of the region air-quality aggregation and choropleth engine
(`air_quality_map_ow.py`).  The Python program is shallowly embedded:
JSON-like dynamic values become the inductive type `JVal`, Python
exceptions become `Except PyExn`, numeric values are modelled as exact
rationals, and each relevant source function is translated definition by
definition.  Theorems at the end settle the specification claims.
-/

set_option linter.unusedVariables false

namespace AirQuality

/-- Dynamic (JSON/Python) values flowing through the pipeline: `None`,
numbers, strings, lists, and string-keyed dicts (association lists,
first binding wins, mirroring dict key uniqueness). -/
inductive JVal where
  | null : JVal
  | num (q : ℚ) : JVal
  | str (s : String) : JVal
  | list (xs : List JVal) : JVal
  | dict (fields : List (String × JVal)) : JVal

/-- Python exceptions that the embedded fragments can raise. -/
inductive PyExn where
  | keyError
  | typeError
  | attributeError
  | indexError
  | zeroDivisionError
  deriving DecidableEq

/-- Whether a value is Python `None`. -/
def JVal.isNull : JVal → Bool
  | .null => true
  | _ => false

/-- Python truthiness (`if not aq_data:`): `None`, `0`, `""`, `[]`, `{}`
are falsy, everything else truthy. -/
def JVal.truthy : JVal → Bool
  | .null => false
  | .num q => decide (q ≠ 0)
  | .str s => decide (s ≠ "")
  | .list xs => !xs.isEmpty
  | .dict d => !d.isEmpty

/-- Python `str.lower()`, character by character (an executable model:
the built-in `String.toLower` is not reducible by the kernel). -/
def pyLower (s : String) : String := ⟨s.data.map Char.toLower⟩

/-- Python `str.upper()`, character by character. -/
def pyUpper (s : String) : String := ⟨s.data.map Char.toUpper⟩

/-- Whether `needle` occurs at the head of `hay`. -/
def leadingChars : List Char → List Char → Bool
  | [], _ => true
  | _ :: _, [] => false
  | a :: as, b :: bs => a == b && leadingChars as bs

/-- Whether `needle` occurs contiguously somewhere in `hay`: Python's
substring containment `needle in hay`. -/
def withinChars (needle : List Char) : List Char → Bool
  | [] => needle.isEmpty
  | c :: tl => leadingChars needle (c :: tl) || withinChars needle tl

/-- Python subscript `v[k]` with a string key: dict lookup raising
`KeyError` when missing, `TypeError` on non-dicts. -/
def JVal.getItem (v : JVal) (k : String) : Except PyExn JVal :=
  match v with
  | .dict d =>
      match d.lookup k with
      | some w => .ok w
      | none => .error .keyError
  | _ => .error .typeError

/-- Python `v.get(k)`: `None` when the key is missing; `AttributeError`
when the receiver is not a dict. -/
def JVal.pyGet (v : JVal) (k : String) : Except PyExn JVal :=
  match v with
  | .dict d => .ok ((d.lookup k).getD .null)
  | _ => .error .attributeError

/-- Python `v.get(k, dflt)` with an explicit default. -/
def JVal.pyGetD (v : JVal) (k : String) (dflt : JVal) : Except PyExn JVal :=
  match v with
  | .dict d => .ok ((d.lookup k).getD dflt)
  | _ => .error .attributeError

/-- Python membership test `k in v` for a string needle `k`: key test on
dicts, element equality on lists, substring test on strings, `TypeError`
otherwise. -/
def JVal.containsStr (v : JVal) (k : String) : Except PyExn Bool :=
  match v with
  | .dict d => .ok (d.lookup k).isSome
  | .list xs => .ok (xs.any (fun x => match x with | .str s => s == k | _ => false))
  | .str s => .ok (withinChars k.data s.data)
  | _ => .error .typeError

/-- Python iteration `for entry in v`: list elements, dict keys, string
characters; `TypeError` on numbers and `None`. -/
def JVal.pyIter : JVal → Except PyExn (List JVal)
  | .list xs => .ok xs
  | .dict d => .ok (d.map (fun kv => .str kv.1))
  | .str s => .ok (s.toList.map (fun c => .str (String.singleton c)))
  | _ => .error .typeError

/-- Python `len(v)`. -/
def JVal.pyLen : JVal → Except PyExn Nat
  | .list xs => .ok xs.length
  | .dict d => .ok d.length
  | .str s => .ok s.length
  | _ => .error .typeError

/-- Python subscript `v[i]` with a non-negative integer index. -/
def JVal.getIdx : JVal → Nat → Except PyExn JVal
  | .list xs, i =>
      match xs.get? i with
      | some w => .ok w
      | none => .error .indexError
  | .str s, i =>
      match s.toList.get? i with
      | some c => .ok (.str (String.singleton c))
      | none => .error .indexError
  | .dict _, _ => .error .keyError
  | _, _ => .error .typeError

/-- Python `sum(...)` folded from the left over an accumulator, raising
`TypeError` on a non-numeric element. -/
def pySum (acc : ℚ) : List JVal → Except PyExn ℚ
  | [] => .ok acc
  | .num q :: rest => pySum (acc + q) rest
  | _ :: _ => .error .typeError

/-- `pollutant_key_map` (src lines 59-68): translate a UI pollutant name
to the OpenWeather `components` key, defaulting to the lower-cased name. -/
def pollutant_key_map (pollutant : String) : String :=
  let mapping : List (String × String) :=
    [("pm25", "pm2_5"), ("pm10", "pm10"), ("o3", "o3"),
     ("no2", "no2"), ("so2", "so2"), ("co", "co")]
  (mapping.lookup (pyLower pollutant)).getD (pyLower pollutant)

/-- The three values of the `display_mode` radio widget. -/
inductive Mode where
  | current
  | forecast
  | historic
  deriving DecidableEq

/-- The list comprehension shared by the Forecast and Historic branches
(src lines 132 and 137):
`[entry["components"].get(p_key) for entry in aq_data if p_key in entry["components"]]`.
The filter condition and the element expression each subscript
`entry["components"]`, in that order, exactly as the source does. -/
def comp_vals (p_key : String) : List JVal → Except PyExn (List JVal)
  | [] => .ok []
  | entry :: rest =>
      match entry.getItem ("components") with
      | .error e => .error e
      | .ok comps =>
          match comps.containsStr p_key with
          | .error e => .error e
          | .ok true =>
              match entry.getItem ("components") with
              | .error e => .error e
              | .ok comps2 =>
                  match comps2.pyGet p_key with
                  | .error e => .error e
                  | .ok v =>
                      match comp_vals p_key rest with
                      | .error e => .error e
                      | .ok tail => .ok (v :: tail)
          | .ok false => comp_vals p_key rest

/-- The averaging code shared verbatim by the Forecast branch
(src lines 132-135) and the Historic branch (src lines 137-140): collect
the component values, drop `None`s, and return their mean, or fall
through to `return None` when none remain.  Note that the Forecast
branch, despite its comment "Take average of next 24 hours", performs no
`[:24]` slice: both branches iterate the whole of `aq_data`. -/
def avg_component_vals (p_key : String) (aq_data : JVal) : Except PyExn JVal :=
  match aq_data.pyIter with
  | .error e => .error e
  | .ok entries =>
      match comp_vals p_key entries with
      | .error e => .error e
      | .ok vals0 =>
          let vals := vals0.filter (fun v => !v.isNull)
          match vals with
          | [] => .ok .null
          | _ :: _ =>
              match pySum 0 vals with
              | .error e => .error e
              | .ok s => .ok (.num (s / (vals.length : ℚ)))

/-- The `try:` block of `extract_color_val` (src lines 127-140), one
branch per display mode; a normal fall-through to the trailing
`return None` is modelled as `.ok .null`. -/
def extract_color_val_body (display_mode : Mode) (p_key : String) (aq_data : JVal) :
    Except PyExn JVal :=
  match display_mode with
  | .current =>
      match aq_data.getItem ("components") with
      | .error e => .error e
      | .ok comps => comps.pyGet p_key
  | .forecast => avg_component_vals p_key aq_data
  | .historic => avg_component_vals p_key aq_data

/-- `extract_color_val` (src lines 123-143).  `display_mode` and
`color_by` are the surrounding script globals, passed explicitly.  A
falsy `aq_data` short-circuits to `None`; any exception raised in the
`try:` block is caught and converted to `None`. -/
def extract_color_val (display_mode : Mode) (color_by : String) (aq_data : JVal) : JVal :=
  if !aq_data.truthy then .null
  else
    let p_key := pollutant_key_map color_by
    match extract_color_val_body display_mode p_key aq_data with
    | .ok v => v
    | .error _ => .null

/-- A well-formed OpenWeather pollution sample, as described by the
payload shape contract: an overall index under `main.aqi`, a timestamp,
and a numeric `components` mapping. -/
structure Sample where
  aqi : ℚ
  dt : ℚ
  components : List (String × ℚ)

/-- Encode a well-formed sample as the JSON value the API returns for it. -/
def Sample.encode (s : Sample) : JVal :=
  .dict [("main", .dict [("aqi", .num s.aqi)]),
         ("dt", .num s.dt),
         ("components", .dict (s.components.map (fun kv => (kv.1, .num kv.2))))]

/-- The pollutant values that samples containing the key contribute, in
order (the specification's "filter to those containing pollutantKey"). -/
def pollutant_vals (p_key : String) (ss : List Sample) : List ℚ :=
  ss.filterMap (fun s => s.components.lookup p_key)

/-- Thirty hourly forecast samples whose pm2_5 values are 1..30 — the
input of end-to-end scenario 2. -/
def forecast30 : List Sample :=
  (List.range 30).map
    (fun i : ℕ => { aqi := 1, dt := 0, components := [("pm2_5", (i + 1 : ℚ))] })

/-- The numeric view of a `color_val` cell: `extract_color_val` returns
a float or `None` on well-formed data; pandas `dropna` and the colormap
consume the numeric values. -/
def JVal.asNum : JVal → Option ℚ
  | .num q => some q
  | _ => none

/-- Whether a value is a number or Python `None` — the shape the
extraction function is specified to return. -/
def JVal.isNumOrNone : JVal → Bool
  | .num _ => true
  | .null => true
  | _ => false

/-- Transport-level failures of `requests.get` (connection refused,
DNS failure, timeout).  No fetch function wraps its `requests.get` in
`try`/`except`, so such an exception propagates out of the fetch. -/
inductive TransportErr where
  | connectionError
  | timeout
  deriving DecidableEq

/-- An HTTP response, reduced to the two things the code reads: the
status code and the parsed JSON body `resp.json()`. -/
structure HttpResponse where
  status_code : ℤ
  json : JVal

/-- What can escape a fetch function: a transport failure from
`requests.get`, or a Python exception raised while reading the body. -/
inductive FetchErr where
  | transport (t : TransportErr)
  | exn (e : PyExn)
  deriving DecidableEq

/-- The response handling shared by the three fetchers (src lines
30-34, 41-45 and 52-56): on status 200, when `"list" in data` and
`len(data["list"]) > 0`, apply `extract` to `data["list"]`; every other
path falls through to `return None`. -/
def fetch_payload (resp : HttpResponse) (extract : JVal → Except PyExn JVal) :
    Except PyExn JVal :=
  if resp.status_code = 200 then
    match resp.json.containsStr ("list") with
    | .error e => .error e
    | .ok true =>
        match resp.json.getItem ("list") with
        | .error e => .error e
        | .ok lst =>
            match lst.pyLen with
            | .error e => .error e
            | .ok n =>
                if 0 < n then
                  match resp.json.getItem ("list") with
                  | .error e => .error e
                  | .ok lst2 => extract lst2
                else .ok JVal.null
    | .ok false => .ok JVal.null
  else .ok JVal.null

/-- `fetch_current_aqi` (src lines 27-34): the outcome of the
`requests.get` call is the input; a transport failure propagates
uncaught, a 200 response with a non-empty `"list"` yields its first
entry, everything else yields `None`. -/
def fetch_current_aqi (getResult : Except TransportErr HttpResponse) :
    Except FetchErr JVal :=
  match getResult with
  | .error t => .error (.transport t)
  | .ok resp =>
      match fetch_payload resp (fun lst => lst.getIdx 0) with
      | .error e => .error (.exn e)
      | .ok v => .ok v

/-- `fetch_forecast_aqi` (src lines 38-45): as `fetch_current_aqi`, but
returning the whole `"list"`. -/
def fetch_forecast_aqi (getResult : Except TransportErr HttpResponse) :
    Except FetchErr JVal :=
  match getResult with
  | .error t => .error (.transport t)
  | .ok resp =>
      match fetch_payload resp (fun lst => .ok lst) with
      | .error e => .error (.exn e)
      | .ok v => .ok v

/-- `fetch_historic_aqi` (src lines 49-56): as `fetch_forecast_aqi`;
the start/end timestamps shape only the request URL. -/
def fetch_historic_aqi (start_unix end_unix : ℤ)
    (getResult : Except TransportErr HttpResponse) : Except FetchErr JVal :=
  match getResult with
  | .error t => .error (.transport t)
  | .ok resp =>
      match fetch_payload resp (fun lst => .ok lst) with
      | .error e => .error (.exn e)
      | .ok v => .ok v

/-- `valid_vals` (src line 148): the `color_val` column with the absent
entries dropped. -/
def valid_vals (color_vals : List (Option ℚ)) : List ℚ :=
  color_vals.filterMap id

/-- The colour-domain computation (src lines 148-152): pandas
`min`/`max` over the valid values, with the fallback domain `[0, 1]`
when no valid value exists. -/
def min_max_vals (color_vals : List (Option ℚ)) : ℚ × ℚ :=
  match valid_vals color_vals with
  | [] => (0, 1)
  | v :: rest => (rest.foldl min v, rest.foldl max v)

/-- An RGBA colour with components in `[0, 1]`, as branca stores its
anchor colours. -/
abbrev RGBA := ℚ × ℚ × ℚ × ℚ

/-- CSS `green`, `#008000`. -/
def greenC : RGBA := (0, 128 / 255, 0, 1)

/-- CSS `yellow`, `#ffff00`. -/
def yellowC : RGBA := (1, 1, 0, 1)

/-- CSS `red`, `#ff0000`. -/
def redC : RGBA := (1, 0, 0, 1)

/-- Division as Python performs it: `ZeroDivisionError` on a zero
denominator. -/
def pyDiv (a b : ℚ) : Except PyExn ℚ :=
  if b = 0 then .error .zeroDivisionError else .ok (a / b)

/-- Componentwise linear interpolation between two colours. -/
def lerp (c1 c2 : RGBA) (t : ℚ) : RGBA :=
  ((1 - t) * c1.1 + t * c2.1,
   (1 - t) * c1.2.1 + t * c2.2.1,
   (1 - t) * c1.2.2.1 + t * c2.2.2.1,
   (1 - t) * c1.2.2.2 + t * c2.2.2.2)

/-- Modelled from the library dependency: branca's
`LinearColormap.rgba_floats_tuple`, instantiated for the colormap the
source builds at lines 154-159 (colors green/yellow/red, hence
`self.index = linspace(vmin, vmax, 3) = [vmin, (vmin+vmax)/2, vmax]`).
A value at or below `index[0]` returns the first colour, one at or
above `index[-1]` the last; strictly inside the index range, `i` counts
the index entries below `x` and the value is interpolated between the
two neighbouring anchors, dividing by their index gap. -/
def colormap_rgba (vmin vmax x : ℚ) : Except PyExn RGBA :=
  let index : List ℚ := [vmin, (vmin + vmax) / 2, vmax]
  let colors : List RGBA := [greenC, yellowC, redC]
  if x ≤ vmin then .ok greenC
  else if vmax ≤ x then .ok redC
  else
    let i := (index.filter (fun u => decide (u < x))).length
    let lo := index.getD (i - 1) 0
    let hi := index.getD i 0
    match pyDiv (x - lo) (hi - lo) with
    | .error e => .error e
    | .ok t => .ok (lerp (colors.getD (i - 1) greenC) (colors.getD i greenC) t)

/-- A region's fill colour: a point on the colour scale, or the `"gray"`
fallback. -/
inductive FillColor where
  | gray
  | rgba (c : RGBA)

/-- `fill_color = colormap(color_val) if color_val is not None else "gray"`
(src line 171). -/
def fill_color (vmin vmax : ℚ) (color_val : Option ℚ) : Except PyExn FillColor :=
  match color_val with
  | none => .ok .gray
  | some v =>
      match colormap_rgba vmin vmax v with
      | .error e => .error e
      | .ok c => .ok (.rgba c)

/-- A geographic point as shapely exposes it: `x` is the longitude and
`y` the latitude (the source builds `coords = [[geom.y, geom.x], ...]`). -/
structure GeoPoint where
  x : ℚ
  y : ℚ

/-- `get_nearest_station_coord` (src lines 101-103): the resolver
returns the region's own centroid as the `(lat, lon)` pair to query. -/
def get_nearest_station_coord (point : GeoPoint) : ℚ × ℚ :=
  (point.y, point.x)

/-- Configuration-level failures that abort the render cycle before any
region is processed. -/
inductive ConfigurationError where
  | emptyRegionSet
  deriving DecidableEq

/-- Modelled from the library dependency: `sklearn.neighbors.BallTree`
construction over the region centroids (src line 98) validates its data
array and raises on an empty region set (`Found array with 0 sample(s)`);
on non-empty input the index holds the points. -/
def ballTree_build (pts : List (ℚ × ℚ)) : Except ConfigurationError (List (ℚ × ℚ)) :=
  match pts with
  | [] => .error .emptyRegionSet
  | _ :: _ => .ok pts

/-- The nearest-neighbour scan underlying a k = 1 tree query: index and
distance of the point closest to `q` under the distance function `d`,
preferring the earlier point on ties. -/
def nearestAux (d : (ℚ × ℚ) → (ℚ × ℚ) → ℚ) (q : ℚ × ℚ) :
    List (ℚ × ℚ) → Option (ℕ × ℚ)
  | [] => none
  | p :: rest =>
      match nearestAux d q rest with
      | none => some (0, d q p)
      | some (j, dj) => if dj < d q p then some (j + 1, dj) else some (0, d q p)

/-- Modelled from the spec: `nearestRegion(coord)` — the BallTree query
with k = 1 over all region query points, "returns the region whose
query point is geodesically closest".  The source builds the haversine
BallTree (src line 98) but never issues a query, so the lookup is
parameterized by the distance function `d` (for the source, haversine
distance on the coordinates in radians). -/
def nearest_region (d : (ℚ × ℚ) → (ℚ × ℚ) → ℚ) (pts : List (ℚ × ℚ)) (q : ℚ × ℚ) :
    Option ℕ :=
  (nearestAux d q pts).map Prod.fst

/-- A concrete distance function used to instantiate `nearest_region`
in witnesses and counterexamples: squared euclidean distance, which
agrees with every metric in assigning distance zero to coincident
points. -/
def sq_dist (p q : ℚ × ℚ) : ℚ :=
  (p.1 - q.1) * (p.1 - q.1) + (p.2 - q.2) * (p.2 - q.2)

/-- A per-region render descriptor: the GeoJson fill colour, the tooltip
text and the marker label (src lines 200-214 emit exactly one GeoJson
layer and one marker from these three pieces per region row). -/
structure Descriptor where
  fill : FillColor
  tooltip : String
  label : String

/-- Python string interpolation of the values the tooltip prints.  The
exact decimal rendering of a float is irrelevant to every property
proved here; numbers are shown via the canonical rational rendering. -/
def pyShow : JVal → String
  | .null => "None"
  | .num q => toString q
  | .str s => s
  | .list _ => "[list]"
  | .dict _ => "[dict]"

/-- The literal value of the `display_mode` radio widget. -/
def Mode.display : Mode → String
  | .current => "Current"
  | .forecast => "Forecast"
  | .historic => "Historic"

/-- One Current-mode tooltip line (src lines 179-182):
`val = aq_data["components"].get(p_key, "N/A")` rendered as
`f"{p.upper()}: {val}<br>"`. -/
def current_line (aq_data : JVal) (p : String) : Except PyExn String :=
  match aq_data.getItem ("components") with
  | .error e => .error e
  | .ok comps =>
      match comps.pyGetD (pollutant_key_map p) (.str ("N/A")) with
      | .error e => .error e
      | .ok val => .ok (pyUpper p ++ ": " ++ pyShow val ++ "<br>")

/-- The pure value of a Current-mode tooltip line on a well-formed
sample: the component value when present, the `N/A` marker otherwise. -/
def current_line_pure (s : Sample) (p : String) : String :=
  match s.components.lookup (pollutant_key_map p) with
  | some q => pyUpper p ++ ": " ++ pyShow (.num q) ++ "<br>"
  | none => pyUpper p ++ ": " ++ "N/A" ++ "<br>"

/-- One Forecast/Historic tooltip line (src lines 189-194): the mean of
the pollutant over `entries`, or the `N/A` marker when no entry carries
the pollutant, rendered as `f"{p.upper()} ({display_mode} avg): {avg_val}<br>"`. -/
def avg_line (display_mode : Mode) (entries : List JVal) (p : String) :
    Except PyExn String :=
  match comp_vals (pollutant_key_map p) entries with
  | .error e => .error e
  | .ok vals0 =>
      let vals := vals0.filter (fun v => !v.isNull)
      match vals with
      | [] => .ok (pyUpper p ++ " (" ++ display_mode.display ++ " avg): " ++ "N/A" ++ "<br>")
      | _ :: _ =>
          match pySum 0 vals with
          | .error e => .error e
          | .ok s =>
              .ok (pyUpper p ++ " (" ++ display_mode.display ++ " avg): " ++
                pyShow (.num (s / (vals.length : ℚ))) ++ "<br>")

/-- The pure value of a Forecast/Historic tooltip line on well-formed
samples. -/
def avg_line_pure (display_mode : Mode) (ss : List Sample) (p : String) : String :=
  let vals := pollutant_vals (pollutant_key_map p) ss
  pyUpper p ++ " (" ++ display_mode.display ++ " avg): " ++
    (if vals.isEmpty then "N/A" else pyShow (.num (vals.sum / (vals.length : ℚ)))) ++ "<br>"

/-- The tooltip loop over the selected pollutants, accumulating one line
per pollutant; an exception in any line aborts the loop. -/
def append_lines (line : String → Except PyExn String) : List String → Except PyExn String
  | [] => .ok ""
  | p :: rest =>
      match line p with
      | .error e => .error e
      | .ok s =>
          match append_lines line rest with
          | .error e => .error e
          | .ok t => .ok (s ++ t)

/-- `tooltip_html` (src lines 174-198): the name header, then —
depending on truthiness of `aq_data`, the mode, and whether the payload
is a list — the overall AQI and per-pollutant lines, the per-pollutant
averages (over the first 24 entries in Forecast mode, all entries in
Historic mode), `"No detailed data available."`, or
`"No data available."`. -/
def tooltip_html (display_mode : Mode) (selected : List String) (name : String)
    (aq_data : JVal) : Except PyExn String :=
  let header := "<b>" ++ name ++ "</b><br>"
  if aq_data.truthy then
    match display_mode with
    | .current =>
        match aq_data.getItem ("main") with
        | .error e => .error e
        | .ok mainv =>
            match mainv.getItem ("aqi") with
            | .error e => .error e
            | .ok aqiv =>
                match append_lines (current_line aq_data) selected with
                | .error e => .error e
                | .ok lines =>
                    .ok (header ++ "AQI (Overall): " ++ pyShow aqiv ++ "<br>" ++ lines)
    | _ =>
        match aq_data with
        | .list entries =>
            match append_lines
                (avg_line display_mode
                  (if display_mode = Mode.forecast then entries.take 24 else entries))
                selected with
            | .error e => .error e
            | .ok lines => .ok (header ++ lines)
        | _ => .ok (header ++ "No detailed data available.<br>")
  else .ok (header ++ "No data available.<br>")

/-- One row of the neighborhoods frame as the render loop reads it
(src lines 164-169): the name, the raw query result, and the derived
`color_val` cell. -/
structure RegionRow where
  neighborhood : String
  aq_data : JVal
  color_val : Option ℚ

/-- Assemble a row (src lines 107-120 and 145): the fetched query
result together with the `color_val` column entry computed from it. -/
def make_row (display_mode : Mode) (color_by : String) (name : String) (aq_data : JVal) :
    RegionRow :=
  ⟨name, aq_data, (extract_color_val display_mode color_by aq_data).asNum⟩

/-- One iteration of the render loop (src lines 164-209): fill colour
from the colormap (gray when the value is absent) plus the tooltip. -/
def build_descriptor (display_mode : Mode) (selected : List String) (vmin vmax : ℚ)
    (row : RegionRow) : Except PyExn Descriptor :=
  match fill_color vmin vmax row.color_val with
  | .error e => .error e
  | .ok fc =>
      match tooltip_html display_mode selected row.neighborhood row.aq_data with
      | .error e => .error e
      | .ok tt => .ok ⟨fc, tt, row.neighborhood⟩

/-- The whole render loop: one descriptor per region row, in order; the
loop body is not wrapped in `try`, so an exception in any iteration
aborts the cycle. -/
def render_all (display_mode : Mode) (selected : List String) (vmin vmax : ℚ) :
    List RegionRow → Except PyExn (List Descriptor)
  | [] => .ok []
  | row :: rest =>
      match build_descriptor display_mode selected vmin vmax row with
      | .error e => .error e
      | .ok dsc =>
          match render_all display_mode selected vmin vmax rest with
          | .error e => .error e
          | .ok ds => .ok (dsc :: ds)

/-- Query results on which the render loop raises no exception: the
absent result, a well-formed current sample, or a list of well-formed
samples in the sequence modes. -/
inductive WFData : Mode → JVal → Prop where
  | absent (m : Mode) : WFData m JVal.null
  | currentSample (s : Sample) : WFData Mode.current s.encode
  | forecastList (ss : List Sample) : WFData Mode.forecast (JVal.list (ss.map Sample.encode))
  | historicList (ss : List Sample) : WFData Mode.historic (JVal.list (ss.map Sample.encode))

theorem lookup_map_num (l : List (String × ℚ)) (k : String) :
    (l.map (fun kv => (kv.1, JVal.num kv.2))).lookup k = (l.lookup k).map JVal.num := by
  induction l with
  | nil => rfl
  | cons hd tl ih =>
      simp only [List.map_cons, List.lookup]
      cases k == hd.1 <;> simp [ih]

theorem comp_vals_encode (k : String) (ss : List Sample) :
    comp_vals k (ss.map Sample.encode) = .ok ((pollutant_vals k ss).map JVal.num) := by
  induction ss with
  | nil => rfl
  | cons s tl ih =>
      simp only [List.map_cons, comp_vals, Sample.encode, JVal.getItem, JVal.containsStr,
        JVal.pyGet, List.lookup, pollutant_vals, List.filterMap_cons]
      rw [show (("components" : String) == "main") = false from rfl,
        show (("components" : String) == "dt") = false from rfl,
        show (("components" : String) == "components") = true from rfl]
      simp only [lookup_map_num]
      cases h : s.components.lookup k with
      | none =>
          simp only [Option.map_none, Option.isSome_none]
          simpa [pollutant_vals] using ih
      | some q =>
          simp only [Option.map_some, Option.isSome_some, Option.getD_some]
          rw [show comp_vals k (tl.map Sample.encode) =
            .ok ((pollutant_vals k tl).map JVal.num) from ih]
          simp [pollutant_vals]

theorem filter_not_null_map_num (l : List ℚ) :
    (l.map JVal.num).filter (fun v => !v.isNull) = l.map JVal.num := by
  induction l with
  | nil => rfl
  | cons q tl ih => simp [List.filter, JVal.isNull, ih]

theorem pySum_map_num (l : List ℚ) : ∀ acc : ℚ, pySum acc (l.map JVal.num) = .ok (acc + l.sum) := by
  induction l with
  | nil => intro acc; simp [pySum]
  | cons q tl ih =>
      intro acc
      simp only [List.map_cons, pySum, ih, List.sum_cons]
      ring_nf

theorem truthy_encode_list (ss : List Sample) :
    (JVal.list (ss.map Sample.encode)).truthy = !ss.isEmpty := by
  cases ss <;> rfl

/-- Core evaluation of the Historic branch on well-formed sample lists:
the scalar is the mean of the values of samples containing the key, and
`None` when no sample contains it. -/
theorem historic_scalar_eval (cb : String) (ss : List Sample) :
    extract_color_val Mode.historic cb (JVal.list (ss.map Sample.encode)) =
      (if (pollutant_vals (pollutant_key_map cb) ss).isEmpty then JVal.null
       else JVal.num ((pollutant_vals (pollutant_key_map cb) ss).sum /
                      ((pollutant_vals (pollutant_key_map cb) ss).length : ℚ))) := by
  cases ss with
  | nil => rfl
  | cons s tl =>
      have h1 : extract_color_val Mode.historic cb (JVal.list ((s :: tl).map Sample.encode)) =
          (match avg_component_vals (pollutant_key_map cb)
              (JVal.list ((s :: tl).map Sample.encode)) with
           | .ok v => v
           | .error _ => JVal.null) := rfl
      have h2 : avg_component_vals (pollutant_key_map cb)
          (JVal.list ((s :: tl).map Sample.encode)) =
          (match comp_vals (pollutant_key_map cb) ((s :: tl).map Sample.encode) with
           | .error e => .error e
           | .ok vals0 =>
               match vals0.filter (fun v => !v.isNull) with
               | [] => .ok .null
               | _ :: _ =>
                   match pySum 0 (vals0.filter (fun v => !v.isNull)) with
                   | .error e => .error e
                   | .ok sm =>
                       .ok (.num (sm / ((vals0.filter (fun v => !v.isNull)).length : ℚ)))) := rfl
      rw [h1, h2, comp_vals_encode]
      simp only [filter_not_null_map_num]
      cases h : pollutant_vals (pollutant_key_map cb) (s :: tl) with
      | nil => simp
      | cons q qs =>
          have hs := pySum_map_num (q :: qs) 0
          simp only [List.map_cons] at hs
          simp [hs, List.sum_cons]

end AirQuality

namespace AirQuality

/-- Claim C5: in Current mode the scalar is the sample's `components`
value at the requested pollutant key when present and `None` otherwise;
and in every mode an absent query result (`None`) yields `None`. -/
theorem current_scalar_is_component_value :
    (∀ (m : Mode) (cb : String), extract_color_val m cb JVal.null = JVal.null) ∧
    (∀ (cb : String) (s : Sample) (x : ℚ),
        s.components.lookup (pollutant_key_map cb) = some x →
        extract_color_val Mode.current cb s.encode = JVal.num x) ∧
    (∀ (cb : String) (s : Sample),
        s.components.lookup (pollutant_key_map cb) = none →
        extract_color_val Mode.current cb s.encode = JVal.null) := by
  refine ⟨fun m cb => rfl, ?_, ?_⟩
  · intro cb s x h
    unfold extract_color_val extract_color_val_body
    simp only [Sample.encode, JVal.truthy, List.isEmpty_cons, Bool.not_false, if_false,
      JVal.getItem, List.lookup]
    rw [show (("components" : String) == "main") = false from rfl,
      show (("components" : String) == "dt") = false from rfl,
      show (("components" : String) == "components") = true from rfl]
    simp [JVal.pyGet, lookup_map_num, h]
  · intro cb s h
    unfold extract_color_val extract_color_val_body
    simp only [Sample.encode, JVal.truthy, List.isEmpty_cons, Bool.not_false, if_false,
      JVal.getItem, List.lookup]
    rw [show (("components" : String) == "main") = false from rfl,
      show (("components" : String) == "dt") = false from rfl,
      show (("components" : String) == "components") = true from rfl]
    simp [JVal.pyGet, lookup_map_num, h]

theorem current_scalar_is_component_value_witness :
    extract_color_val Mode.current ("pm25") (Sample.encode ⟨2, 0, [("pm2_5", 10)]⟩) =
      JVal.num 10 ∧
    extract_color_val Mode.current ("o3") (Sample.encode ⟨2, 0, [("pm2_5", 10)]⟩) =
      JVal.null :=
  ⟨current_scalar_is_component_value.2.1 ("pm25") ⟨2, 0, [("pm2_5", 10)]⟩ 10 (by decide),
   current_scalar_is_component_value.2.2 ("o3") ⟨2, 0, [("pm2_5", 10)]⟩ (by decide)⟩

/-- Claim C4: in Historic mode the scalar is the arithmetic mean of the
requested pollutant over the whole sample sequence, restricted to
samples containing the key; it is `None` exactly when no sample contains
the key, and a sample lacking the key is excluded rather than counted as
zero: `[{pm2_5:5},{no2:8}]` with key `pm2_5` yields 5. -/
theorem historic_scalar_is_full_mean :
    (∀ (cb : String) (ss : List Sample),
        extract_color_val Mode.historic cb (JVal.list (ss.map Sample.encode)) =
          (if (pollutant_vals (pollutant_key_map cb) ss).isEmpty then JVal.null
           else JVal.num ((pollutant_vals (pollutant_key_map cb) ss).sum /
                          ((pollutant_vals (pollutant_key_map cb) ss).length : ℚ)))) ∧
    (∀ (cb : String) (ss : List Sample),
        extract_color_val Mode.historic cb (JVal.list (ss.map Sample.encode)) = JVal.null ↔
          ∀ s ∈ ss, s.components.lookup (pollutant_key_map cb) = none) ∧
    extract_color_val Mode.historic ("pm25")
        (JVal.list [Sample.encode ⟨1, 0, [("pm2_5", 5)]⟩,
                    Sample.encode ⟨1, 1, [("no2", 8)]⟩]) = JVal.num 5 := by
  refine ⟨historic_scalar_eval, ?_, ?_⟩
  · intro cb ss
    rw [historic_scalar_eval]
    cases h : pollutant_vals (pollutant_key_map cb) ss with
    | nil =>
        constructor
        · intro _ s hs
          exact (List.filterMap_eq_nil_iff.mp h) s hs
        · intro _
          simp
    | cons q qs =>
        constructor
        · intro hn
          simp at hn
        · intro hall
          have h2 : pollutant_vals (pollutant_key_map cb) ss = [] :=
            List.filterMap_eq_nil_iff.mpr hall
          rw [h] at h2
          exact absurd h2 (by simp)
  · rw [show (JVal.list [Sample.encode ⟨1, 0, [("pm2_5", 5)]⟩,
        Sample.encode ⟨1, 1, [("no2", 8)]⟩]) =
      JVal.list (([⟨1, 0, [("pm2_5", 5)]⟩, ⟨1, 1, [("no2", 8)]⟩] : List Sample).map
        Sample.encode) from rfl]
    rw [historic_scalar_eval]
    have hv : pollutant_vals (pollutant_key_map ("pm25"))
        [⟨1, 0, [("pm2_5", 5)]⟩, ⟨1, 1, [("no2", 8)]⟩] = [5] := by decide
    rw [hv]
    norm_num

theorem historic_scalar_is_full_mean_witness :
    extract_color_val Mode.historic ("o3")
        (JVal.list [Sample.encode ⟨1, 0, [("no2", 8)]⟩]) = JVal.null :=
  (historic_scalar_is_full_mean.2.1 ("o3") [⟨1, 0, [("no2", 8)]⟩]).mpr (by
    intro s hs
    simp only [List.mem_singleton] at hs
    subst hs
    decide)

/-- Claim C1 (code bug): the Forecast branch of `extract_color_val` does
not restrict to the leading 24 samples — it is observably identical to
the Historic branch on every input — so 30 hourly samples with pm2_5
values 1..30 yield 15.5 (= 31/2, the mean of all 30), not the 12.5
(= 25/2) that the 24-sample window required by the specification (and by
the source's own comment and its tooltip code, which does slice `[:24]`)
would produce. -/
theorem forecast_ignores_24_sample_window :
    (∀ (cb : String) (aq_data : JVal),
        extract_color_val Mode.forecast cb aq_data =
          extract_color_val Mode.historic cb aq_data) ∧
    extract_color_val Mode.forecast ("pm25") (JVal.list (forecast30.map Sample.encode)) =
      JVal.num (31 / 2) := by
  have hfh : ∀ (cb : String) (aq_data : JVal),
      extract_color_val Mode.forecast cb aq_data =
        extract_color_val Mode.historic cb aq_data :=
    fun cb aq_data => rfl
  refine ⟨hfh, ?_⟩
  rw [hfh, historic_scalar_eval]
  have hk : pollutant_key_map ("pm25") = "pm2_5" := by decide
  have hv : pollutant_vals (pollutant_key_map ("pm25")) forecast30 =
      (List.range 30).map (fun i : ℕ => (i + 1 : ℚ)) := by
    rw [hk]
    unfold pollutant_vals forecast30
    rw [List.filterMap_map]
    have hgen : ∀ l : List ℕ,
        List.filterMap ((fun s : Sample => List.lookup ("pm2_5") s.components) ∘
          fun i : ℕ =>
            ({ aqi := 1, dt := 0, components := [("pm2_5", (i + 1 : ℚ))] } : Sample)) l =
        l.map (fun i : ℕ => (i + 1 : ℚ)) := by
      intro l
      induction l with
      | nil => rfl
      | cons a t ih =>
          rw [List.filterMap_cons,
            show ((fun s : Sample => List.lookup ("pm2_5") s.components) ∘
              fun i : ℕ =>
                ({ aqi := 1, dt := 0, components := [("pm2_5", (i + 1 : ℚ))] } : Sample)) a =
              some ((a : ℚ) + 1) from rfl,
            ih]
          rfl
    exact hgen (List.range 30)
  have hne : ((List.range 30).map (fun i : ℕ => (i + 1 : ℚ))).isEmpty = false := by decide
  have hsum : ((List.range 30).map (fun i : ℕ => (i + 1 : ℚ))).sum = 465 := by
    rw [show (List.range 30) = [0, 1, 2, 3, 4, 5, 6, 7, 8, 9, 10, 11, 12, 13, 14, 15, 16,
      17, 18, 19, 20, 21, 22, 23, 24, 25, 26, 27, 28, 29] from by decide]
    norm_num [List.sum_cons, List.sum_nil]
  have hlen : ((List.range 30).map (fun i : ℕ => (i + 1 : ℚ))).length = 30 := by decide
  rw [hv, hne, hsum, hlen]
  norm_num

/-- Claim C3 counterexample: a transport failure from `requests.get` is
not caught by `fetch_current_aqi` (none of the fetchers contains a
`try`/`except`), so it propagates to the caller instead of becoming
`None`. -/
theorem fetch_transport_failure_raises :
    fetch_current_aqi (.error TransportErr.connectionError) =
      .error (FetchErr.transport TransportErr.connectionError) ∧
    (Except.error (FetchErr.transport TransportErr.connectionError) :
        Except FetchErr JVal) ≠ .ok JVal.null := by
  exact ⟨rfl, by simp⟩

/-- Claim C3 (amended): each fetch operation returns `None` on any
non-success (non-200) response and on an empty result list, but a
transport failure is not caught — it propagates to the caller. -/
theorem fetch_absent_on_failure :
    (∀ resp : HttpResponse, resp.status_code ≠ 200 →
        fetch_current_aqi (.ok resp) = .ok JVal.null ∧
        fetch_forecast_aqi (.ok resp) = .ok JVal.null ∧
        ∀ a b : ℤ, fetch_historic_aqi a b (.ok resp) = .ok JVal.null) ∧
    (∀ (resp : HttpResponse) (d : List (String × JVal)),
        resp.json = JVal.dict d → d.lookup ("list") = some (JVal.list []) →
        fetch_current_aqi (.ok resp) = .ok JVal.null ∧
        fetch_forecast_aqi (.ok resp) = .ok JVal.null ∧
        ∀ a b : ℤ, fetch_historic_aqi a b (.ok resp) = .ok JVal.null) ∧
    (∀ t : TransportErr,
        fetch_current_aqi (.error t) = .error (.transport t) ∧
        fetch_forecast_aqi (.error t) = .error (.transport t) ∧
        ∀ a b : ℤ, fetch_historic_aqi a b (.error t) = .error (.transport t)) := by
  refine ⟨?_, ?_, fun t => ⟨rfl, rfl, fun a b => rfl⟩⟩
  · intro resp h
    have hp : ∀ ex, fetch_payload resp ex = .ok JVal.null := by
      intro ex
      unfold fetch_payload
      rw [if_neg h]
    exact ⟨by simp [fetch_current_aqi, hp], by simp [fetch_forecast_aqi, hp],
      fun a b => by simp [fetch_historic_aqi, hp]⟩
  · intro resp d hjson hlookup
    have hp : ∀ ex, fetch_payload resp ex = .ok JVal.null := by
      intro ex
      unfold fetch_payload
      by_cases hs : resp.status_code = 200
      · rw [if_pos hs, hjson]
        simp [JVal.containsStr, JVal.getItem, JVal.pyLen, hlookup]
      · rw [if_neg hs]
    exact ⟨by simp [fetch_current_aqi, hp], by simp [fetch_forecast_aqi, hp],
      fun a b => by simp [fetch_historic_aqi, hp]⟩

theorem fetch_absent_on_failure_witness :
    fetch_current_aqi (.ok ⟨404, JVal.dict []⟩) = .ok JVal.null ∧
    fetch_forecast_aqi (.ok ⟨200, JVal.dict [("list", JVal.list [])]⟩) = .ok JVal.null :=
  ⟨(fetch_absent_on_failure.1 ⟨404, JVal.dict []⟩ (by decide)).1,
   (fetch_absent_on_failure.2.1 ⟨200, JVal.dict [("list", JVal.list [])]⟩
      [("list", JVal.list [])] rfl rfl).2.1⟩

theorem foldl_min_le_init (l : List ℚ) : ∀ v : ℚ, l.foldl min v ≤ v := by
  induction l with
  | nil => intro v; exact le_refl v
  | cons a t ih =>
      intro v
      rw [List.foldl_cons]
      exact le_trans (ih (min v a)) (min_le_left v a)

theorem foldl_min_le_mem (l : List ℚ) : ∀ v x : ℚ, x ∈ l → l.foldl min v ≤ x := by
  induction l with
  | nil => intro v x hx; cases hx
  | cons a t ih =>
      intro v x hx
      rw [List.foldl_cons]
      rcases List.mem_cons.mp hx with h | h
      · subst h
        exact le_trans (foldl_min_le_init t (min v x)) (min_le_right v x)
      · exact ih (min v a) x h

theorem foldl_min_mem (l : List ℚ) : ∀ v : ℚ, l.foldl min v = v ∨ l.foldl min v ∈ l := by
  induction l with
  | nil => intro v; exact Or.inl rfl
  | cons a t ih =>
      intro v
      rw [List.foldl_cons]
      rcases ih (min v a) with h | h
      · rcases min_choice v a with hh | hh
        · exact Or.inl (by rw [h, hh])
        · exact Or.inr (by rw [h, hh]; exact List.mem_cons_self a t)
      · exact Or.inr (List.mem_cons_of_mem a h)

theorem foldl_max_init_le (l : List ℚ) : ∀ v : ℚ, v ≤ l.foldl max v := by
  induction l with
  | nil => intro v; exact le_refl v
  | cons a t ih =>
      intro v
      rw [List.foldl_cons]
      exact le_trans (le_max_left v a) (ih (max v a))

theorem foldl_max_mem_le (l : List ℚ) : ∀ v x : ℚ, x ∈ l → x ≤ l.foldl max v := by
  induction l with
  | nil => intro v x hx; cases hx
  | cons a t ih =>
      intro v x hx
      rw [List.foldl_cons]
      rcases List.mem_cons.mp hx with h | h
      · subst h
        exact le_trans (le_max_right v x) (foldl_max_init_le t (max v x))
      · exact ih (max v a) x h

theorem foldl_max_mem (l : List ℚ) : ∀ v : ℚ, l.foldl max v = v ∨ l.foldl max v ∈ l := by
  induction l with
  | nil => intro v; exact Or.inl rfl
  | cons a t ih =>
      intro v
      rw [List.foldl_cons]
      rcases ih (max v a) with h | h
      · rcases max_choice v a with hh | hh
        · exact Or.inl (by rw [h, hh])
        · exact Or.inr (by rw [h, hh]; exact List.mem_cons_self a t)
      · exact Or.inr (List.mem_cons_of_mem a h)

/-- Claim C6: the colour domain is `[0, 1]` when no aggregated value is
present, and otherwise `[min of present values, max of present values]`
(both endpoints are attained present values and bound every present
value). -/
theorem color_domain_min_max :
    (∀ cv : List (Option ℚ), valid_vals cv = [] → min_max_vals cv = (0, 1)) ∧
    (∀ cv : List (Option ℚ), valid_vals cv ≠ [] →
        (min_max_vals cv).1 ∈ valid_vals cv ∧ (min_max_vals cv).2 ∈ valid_vals cv ∧
        ∀ x ∈ valid_vals cv, (min_max_vals cv).1 ≤ x ∧ x ≤ (min_max_vals cv).2) := by
  constructor
  · intro cv h
    unfold min_max_vals
    rw [h]
  · intro cv h
    cases hv : valid_vals cv with
    | nil => exact absurd hv h
    | cons v rest =>
        unfold min_max_vals
        rw [hv]
        refine ⟨?_, ?_, ?_⟩
        · show rest.foldl min v ∈ v :: rest
          rcases foldl_min_mem rest v with hm | hm
          · rw [hm]; exact List.mem_cons_self v rest
          · exact List.mem_cons_of_mem v hm
        · show rest.foldl max v ∈ v :: rest
          rcases foldl_max_mem rest v with hm | hm
          · rw [hm]; exact List.mem_cons_self v rest
          · exact List.mem_cons_of_mem v hm
        · intro x hx
          rcases List.mem_cons.mp hx with hh | hh
          · subst hh
            exact ⟨foldl_min_le_init rest x, foldl_max_init_le rest x⟩
          · exact ⟨foldl_min_le_mem rest v x hh, foldl_max_mem_le rest v x hh⟩

theorem color_domain_min_max_witness :
    (min_max_vals [some 3, none, some 1]).1 ∈ valid_vals [some 3, none, some 1] ∧
    (min_max_vals [some 3, none, some 1]).2 ∈ valid_vals [some 3, none, some 1] :=
  ⟨(color_domain_min_max.2 [some 3, none, some 1] (by decide)).1,
   (color_domain_min_max.2 [some 3, none, some 1] (by decide)).2.1⟩

/-- Claim C2 counterexample: on the degenerate domain `[20, 20]` the
colour mapping applied to the in-domain value 20 returns the low-anchor
colour (green), not the mid-anchor colour (yellow): branca's clamping
guard `x <= self.index[0]` fires before any interpolation. -/
theorem degenerate_domain_returns_low_anchor :
    colormap_rgba 20 20 20 = .ok greenC ∧ greenC ≠ yellowC := by
  constructor
  · simp only [colormap_rgba]
    rw [if_pos (le_refl (20 : ℚ))]
  · simp [greenC, yellowC, Prod.ext_iff]

/-- Claim C2 (amended): on a degenerate domain (min = max = v) the
mapping never divides by zero: values at or below v (the domain value
included) return the low-anchor colour and values above v the
high-anchor colour, both through the clamping guards, and the region's
fill colour at the domain value is the low anchor. -/
theorem degenerate_domain_no_division (v x : ℚ) :
    (∃ c, colormap_rgba v v x = .ok c) ∧
    (x ≤ v → colormap_rgba v v x = .ok greenC) ∧
    (v < x → colormap_rgba v v x = .ok redC) ∧
    fill_color v v (some v) = .ok (FillColor.rgba greenC) := by
  have hle : ∀ y : ℚ, y ≤ v → colormap_rgba v v y = .ok greenC := by
    intro y hy
    simp only [colormap_rgba]
    rw [if_pos hy]
  have hgt : ∀ y : ℚ, v < y → colormap_rgba v v y = .ok redC := by
    intro y hy
    simp only [colormap_rgba]
    rw [if_neg (not_le.mpr hy), if_pos (le_of_lt hy)]
  refine ⟨?_, hle x, hgt x, ?_⟩
  · by_cases h : x ≤ v
    · exact ⟨greenC, hle x h⟩
    · exact ⟨redC, hgt x (lt_of_not_le h)⟩
  · simp only [fill_color]
    rw [hle v (le_refl v)]

theorem degenerate_domain_no_division_witness :
    colormap_rgba 20 20 20 = .ok greenC ∧
    fill_color 20 20 (some 20) = .ok (FillColor.rgba greenC) :=
  ⟨(degenerate_domain_no_division 20 20).2.1 (le_refl 20),
   (degenerate_domain_no_division 20 20).2.2.2⟩

theorem nearestAux_cons_ne_none (d : (ℚ × ℚ) → (ℚ × ℚ) → ℚ) (q p : ℚ × ℚ)
    (rest : List (ℚ × ℚ)) : nearestAux d q (p :: rest) ≠ none := by
  simp only [nearestAux]
  cases nearestAux d q rest with
  | none => simp
  | some jd =>
      obtain ⟨j, dj⟩ := jd
      by_cases h : dj < d q p <;> simp [h]

theorem nearestAux_sound (d : (ℚ × ℚ) → (ℚ × ℚ) → ℚ) (q : ℚ × ℚ) :
    ∀ (pts : List (ℚ × ℚ)) (j : ℕ) (dj : ℚ), nearestAux d q pts = some (j, dj) →
      ∃ hj : j < pts.length, dj = d q (pts.get ⟨j, hj⟩) ∧
        ∀ k : Fin pts.length, dj ≤ d q (pts.get k) := by
  intro pts
  induction pts with
  | nil => intro j dj h; cases h
  | cons p rest ih =>
      intro j dj h
      cases hrest : nearestAux d q rest with
      | none =>
          cases rest with
          | cons r rs => exact absurd hrest (nearestAux_cons_ne_none d q r rs)
          | nil =>
              simp only [nearestAux, Option.some.injEq, Prod.mk.injEq] at h
              obtain ⟨h1, h2⟩ := h
              subst h1
              subst h2
              refine ⟨by simp, rfl, ?_⟩
              intro k
              fin_cases k
              exact le_refl _
      | some jd =>
          obtain ⟨j0, dj0⟩ := jd
          obtain ⟨hj0, hdj0, hmin0⟩ := ih j0 dj0 hrest
          simp only [nearestAux, hrest] at h
          by_cases hlt : dj0 < d q p
          · rw [if_pos hlt] at h
            simp only [Option.some.injEq, Prod.mk.injEq] at h
            obtain ⟨h1, h2⟩ := h
            subst h1
            subst h2
            refine ⟨Nat.succ_lt_succ hj0, by simpa using hdj0, ?_⟩
            intro k
            rcases Fin.eq_zero_or_eq_succ k with hk | ⟨i, hk⟩
            · subst hk
              exact le_of_lt hlt
            · subst hk
              simpa using hmin0 i
          · rw [if_neg hlt] at h
            simp only [Option.some.injEq, Prod.mk.injEq] at h
            obtain ⟨h1, h2⟩ := h
            subst h1
            subst h2
            refine ⟨Nat.succ_pos _, rfl, ?_⟩
            intro k
            rcases Fin.eq_zero_or_eq_succ k with hk | ⟨i, hk⟩
            · subst hk
              exact le_refl _
            · subst hk
              exact le_trans (not_lt.mp hlt) (by simpa using hmin0 i)

theorem nearest_region_total (d : (ℚ × ℚ) → (ℚ × ℚ) → ℚ) (pts : List (ℚ × ℚ))
    (q : ℚ × ℚ) (h : pts ≠ []) :
    ∃ j, nearest_region d pts q = some j ∧ j < pts.length := by
  cases pts with
  | nil => exact absurd rfl h
  | cons p rest =>
      cases haux : nearestAux d q (p :: rest) with
      | none => exact absurd haux (nearestAux_cons_ne_none d q p rest)
      | some jd =>
          obtain ⟨j, dj⟩ := jd
          obtain ⟨hj, _, _⟩ := nearestAux_sound d q (p :: rest) j dj haux
          exact ⟨j, by simp [nearest_region, haux], hj⟩

/-- Claim C8: an empty region set makes the spatial-index construction
fail with the configuration error — of a type distinct from the
per-region data-gap path, aborting the render cycle — while for any
non-empty region set the construction succeeds and a nearest-neighbour
query always returns a match within bounds. -/
theorem empty_region_set_fails_nonempty_always_matches :
    ballTree_build [] = .error ConfigurationError.emptyRegionSet ∧
    (∀ pts : List (ℚ × ℚ), pts ≠ [] → ballTree_build pts = .ok pts) ∧
    (∀ (d : (ℚ × ℚ) → (ℚ × ℚ) → ℚ) (pts : List (ℚ × ℚ)) (q : ℚ × ℚ), pts ≠ [] →
        ∃ j, nearest_region d pts q = some j ∧ j < pts.length) := by
  refine ⟨rfl, ?_, fun d pts q h => nearest_region_total d pts q h⟩
  intro pts h
  cases pts with
  | nil => exact absurd rfl h
  | cons p rest => rfl

theorem empty_region_set_fails_witness :
    ballTree_build [((0 : ℚ), (0 : ℚ))] = .ok [((0 : ℚ), (0 : ℚ))] ∧
    (nearest_region sq_dist [((0 : ℚ), (0 : ℚ))] (1, 1)).isSome = true := by
  constructor
  · exact empty_region_set_fails_nonempty_always_matches.2.1 [(0, 0)] (by simp)
  · obtain ⟨j, hj, _⟩ :=
      empty_region_set_fails_nonempty_always_matches.2.2 sq_dist [(0, 0)] (1, 1) (by simp)
    rw [hj]
    rfl

/-- Claim C9 counterexample: nothing prevents two regions from sharing
a query point, and then no lookup can return both ids: with regions 0
and 1 both at the origin, every pairwise distance is 0 (exactly as
under the haversine metric for coincident coordinates), and resolving
region 1's own query point returns region 0, not region 1. -/
theorem duplicate_query_point_resolves_to_other_region :
    nearest_region sq_dist [((0 : ℚ), (0 : ℚ)), ((0 : ℚ), (0 : ℚ))] (0, 0) = some 0 ∧
    (some 0 : Option ℕ) ≠ some 1 := by
  constructor
  · simp [nearest_region, nearestAux, lt_irrefl]
  · simp

/-- Claim C9 (amended): provided no two regions share a query point
(equivalently, under the haversine metric, all pairwise distances
between distinct regions' points are positive), resolving a region's
own query point through the nearest-region lookup returns that
region's own index — stated for any distance function that, like the
haversine distance, assigns distance zero to a point and itself — and
the resolver maps each region to its own centroid coordinates. -/
theorem nearest_lookup_self_consistency :
    (∀ (d : (ℚ × ℚ) → (ℚ × ℚ) → ℚ) (pts : List (ℚ × ℚ)) (i : Fin pts.length),
        d (pts.get i) (pts.get i) = 0 →
        (∀ k : Fin pts.length, k ≠ i → 0 < d (pts.get i) (pts.get k)) →
        nearest_region d pts (pts.get i) = some i.val) ∧
    (∀ p : GeoPoint, get_nearest_station_coord p = (p.y, p.x)) := by
  refine ⟨?_, fun p => rfl⟩
  intro d pts i hself hpos
  have hne : pts ≠ [] := by
    intro hnil
    have h0 : pts.length = 0 := by rw [hnil]; rfl
    exact absurd i.isLt (by omega)
  obtain ⟨j, hj, hjlt⟩ := nearest_region_total d pts (pts.get i) hne
  cases haux : nearestAux d (pts.get i) pts with
  | none =>
      simp only [nearest_region, haux, Option.map_none] at hj
      cases hj
  | some jd =>
      obtain ⟨j0, dj⟩ := jd
      simp only [nearest_region, haux, Option.map_some, Option.some.injEq] at hj
      obtain ⟨hj0lt, hdj, hmin⟩ := nearestAux_sound d (pts.get i) pts j0 dj haux
      by_cases hji : (⟨j0, hj0lt⟩ : Fin pts.length) = i
      · simp only [nearest_region, haux, Option.map_some]
        have hv : j0 = i.val := congrArg Fin.val hji
        rw [hv]
        rfl
      · exfalso
        have h1 : dj ≤ d (pts.get i) (pts.get i) := hmin i
        rw [hself] at h1
        have h2 : 0 < d (pts.get i) (pts.get ⟨j0, hj0lt⟩) := hpos ⟨j0, hj0lt⟩ hji
        rw [← hdj] at h2
        exact absurd (lt_of_lt_of_le h2 h1) (lt_irrefl 0)

theorem avg_component_vals_ok_shape (k : String) (a : JVal) (v : JVal)
    (h : avg_component_vals k a = .ok v) :
    v = JVal.null ∨ ∃ q, v = JVal.num q := by
  unfold avg_component_vals at h
  cases hit : a.pyIter with
  | error e => simp only [hit] at h; exact Except.noConfusion h
  | ok entries =>
      simp only [hit] at h
      cases hcv : comp_vals k entries with
      | error e => simp only [hcv] at h; exact Except.noConfusion h
      | ok vals0 =>
          simp only [hcv] at h
          cases hf : vals0.filter (fun v => !v.isNull) with
          | nil =>
              simp only [hf, Except.ok.injEq] at h
              exact Or.inl h.symm
          | cons w ws =>
              simp only [hf] at h
              cases hs : pySum 0 (w :: ws) with
              | error e => simp only [hs] at h; exact Except.noConfusion h
              | ok s =>
                  simp only [hs, Except.ok.injEq] at h
                  exact Or.inr ⟨s / ((w :: ws).length : ℚ), h.symm⟩

/-- Claim C10 counterexample: the extraction function does not always
return a numeric scalar or `None` — in Current mode a non-numeric value
stored under the pollutant key (malformed data) raises no exception and
is returned verbatim. -/
theorem current_returns_nonnumeric_verbatim :
    extract_color_val Mode.current ("pm25")
        (JVal.dict [("components", JVal.dict [("pm2_5", JVal.str ("n/a"))])]) =
      JVal.str ("n/a") ∧
    JVal.isNumOrNone (JVal.str ("n/a")) = false := by
  exact ⟨rfl, rfl⟩

/-- Claim C10 (amended): `extract_color_val` never propagates an
exception — any exception raised in the `try:` body is caught and
converted to `None` — and in Forecast/Historic modes its result is
always `None` or a numeric scalar; in Current mode the result is `None`
or exactly the stored components entry, returned verbatim: numeric on
well-formed data, but possibly non-numeric for malformed component
values. -/
theorem extract_color_val_total (m : Mode) (cb : String) (aq_data : JVal) :
    (∀ e : PyExn, extract_color_val_body m (pollutant_key_map cb) aq_data = .error e →
        extract_color_val m cb aq_data = JVal.null) ∧
    ((m = Mode.forecast ∨ m = Mode.historic) →
        extract_color_val m cb aq_data = JVal.null ∨
        ∃ q, extract_color_val m cb aq_data = JVal.num q) ∧
    (m = Mode.current →
        extract_color_val m cb aq_data = JVal.null ∨
        ∃ comps, aq_data.getItem ("components") = .ok comps ∧
          comps.pyGet (pollutant_key_map cb) = .ok (extract_color_val m cb aq_data)) := by
  by_cases ht : aq_data.truthy
  case neg =>
    have hnull : extract_color_val m cb aq_data = JVal.null := by
      unfold extract_color_val
      rw [if_pos (by simp [Bool.not_eq_true] at ht ⊢; exact ht)]
    exact ⟨fun e _ => hnull, fun _ => Or.inl hnull, fun _ => Or.inl hnull⟩
  case pos =>
    have hext : extract_color_val m cb aq_data =
        (match extract_color_val_body m (pollutant_key_map cb) aq_data with
         | .ok v => v
         | .error _ => JVal.null) := by
      unfold extract_color_val
      rw [if_neg (by simp [ht])]
    refine ⟨?_, ?_, ?_⟩
    · intro e he
      rw [hext, he]
    · intro hm
      cases hb : extract_color_val_body m (pollutant_key_map cb) aq_data with
      | error e => rw [hext, hb]; exact Or.inl rfl
      | ok v =>
          have hv : extract_color_val m cb aq_data = v := by rw [hext, hb]
          have hba : extract_color_val_body m (pollutant_key_map cb) aq_data =
              avg_component_vals (pollutant_key_map cb) aq_data := by
            rcases hm with hm | hm <;> (subst hm; rfl)
          rw [hba] at hb
          rcases avg_component_vals_ok_shape _ _ _ hb with h | ⟨q, h⟩
          · exact Or.inl (by rw [hv, h])
          · exact Or.inr ⟨q, by rw [hv, h]⟩
    · intro hm
      subst hm
      cases hgi : aq_data.getItem ("components") with
      | error e =>
          refine Or.inl ?_
          rw [hext]
          have hb : extract_color_val_body Mode.current (pollutant_key_map cb) aq_data
              = .error e := by
            unfold extract_color_val_body
            rw [hgi]
          rw [hb]
      | ok comps =>
          have hb : extract_color_val_body Mode.current (pollutant_key_map cb) aq_data
              = comps.pyGet (pollutant_key_map cb) := by
            unfold extract_color_val_body
            rw [hgi]
          cases hpg : comps.pyGet (pollutant_key_map cb) with
          | error e =>
              exact Or.inl (by rw [hext, hb, hpg])
          | ok v =>
              refine Or.inr ⟨comps, rfl, ?_⟩
              rw [hpg, hext, hb, hpg]

theorem extract_color_val_total_witness :
    extract_color_val Mode.current ("pm25") (JVal.num 7) = JVal.null ∧
    extract_color_val Mode.forecast ("pm25") (JVal.num 7) = JVal.null :=
  ⟨(extract_color_val_total Mode.current ("pm25") (JVal.num 7)).1 PyExn.typeError rfl,
   (extract_color_val_total Mode.forecast ("pm25") (JVal.num 7)).1 PyExn.typeError rfl⟩

theorem str_empty_append (s : String) : "" ++ s = s := by
  cases s with
  | mk data => exact congrArg String.mk (List.nil_append data)

theorem str_append_assoc (a b c : String) : (a ++ b) ++ c = a ++ (b ++ c) := by
  cases a with
  | mk x =>
      cases b with
      | mk y =>
          cases c with
          | mk z => exact congrArg String.mk (List.append_assoc x y z)

theorem colormap_rgba_total (vmin vmax x : ℚ) : ∃ c, colormap_rgba vmin vmax x = .ok c := by
  simp only [colormap_rgba]
  by_cases h1 : x ≤ vmin
  · rw [if_pos h1]; exact ⟨greenC, rfl⟩
  rw [if_neg h1]
  by_cases h2 : vmax ≤ x
  · rw [if_pos h2]; exact ⟨redC, rfl⟩
  rw [if_neg h2]
  have hvx : vmin < x := lt_of_not_le h1
  have hxv : x < vmax := lt_of_not_le h2
  have hlt : vmin < vmax := lt_trans hvx hxv
  have hnm : ¬ vmax < x := not_lt.mpr (le_of_lt hxv)
  by_cases h3 : (vmin + vmax) / 2 < x
  · have hi : ([vmin, (vmin + vmax) / 2, vmax].filter (fun u => decide (u < x))).length = 2 := by
      simp [List.filter, hvx, h3, hnm]
    rw [hi]
    show ∃ c, (match pyDiv (x - (vmin + vmax) / 2) (vmax - (vmin + vmax) / 2) with
      | .error e => Except.error e
      | .ok t => .ok (lerp yellowC redC t)) = .ok c
    have hb : vmax - (vmin + vmax) / 2 ≠ 0 := by intro h0; apply absurd hlt; linarith
    rw [show pyDiv (x - (vmin + vmax) / 2) (vmax - (vmin + vmax) / 2) =
      .ok ((x - (vmin + vmax) / 2) / (vmax - (vmin + vmax) / 2)) from by
        unfold pyDiv; rw [if_neg hb]]
    exact ⟨_, rfl⟩
  · have hi : ([vmin, (vmin + vmax) / 2, vmax].filter (fun u => decide (u < x))).length = 1 := by
      simp [List.filter, hvx, h3, hnm]
    rw [hi]
    show ∃ c, (match pyDiv (x - vmin) ((vmin + vmax) / 2 - vmin) with
      | .error e => Except.error e
      | .ok t => .ok (lerp greenC yellowC t)) = .ok c
    have hb : (vmin + vmax) / 2 - vmin ≠ 0 := by intro h0; apply absurd hlt; linarith
    rw [show pyDiv (x - vmin) ((vmin + vmax) / 2 - vmin) =
      .ok ((x - vmin) / ((vmin + vmax) / 2 - vmin)) from by
        unfold pyDiv; rw [if_neg hb]]
    exact ⟨_, rfl⟩

theorem encode_getItem_components (s : Sample) :
    (Sample.encode s).getItem ("components") =
      .ok (JVal.dict (s.components.map (fun kv => (kv.1, JVal.num kv.2)))) := rfl

theorem current_line_encode (s : Sample) : ∀ p : String,
    current_line (Sample.encode s) p = .ok (current_line_pure s p) := by
  intro p
  unfold current_line
  rw [encode_getItem_components]
  show (match (JVal.dict (s.components.map (fun kv => (kv.1, JVal.num kv.2)))).pyGetD
      (pollutant_key_map p) (.str ("N/A")) with
    | .error e => Except.error e
    | .ok val => .ok (pyUpper p ++ ": " ++ pyShow val ++ "<br>")) =
    .ok (current_line_pure s p)
  rw [show (JVal.dict (s.components.map (fun kv => (kv.1, JVal.num kv.2)))).pyGetD
      (pollutant_key_map p) (.str ("N/A")) =
    .ok (((s.components.lookup (pollutant_key_map p)).map JVal.num).getD (.str ("N/A")))
    from by simp [JVal.pyGetD, lookup_map_num]]
  unfold current_line_pure
  cases h : s.components.lookup (pollutant_key_map p) with
  | none => simp [pyShow]
  | some q => simp [pyShow]

theorem append_lines_ok (f : String → Except PyExn String) (g : String → String)
    (h : ∀ p, f p = .ok (g p)) :
    ∀ sel : List String, append_lines f sel = .ok ((sel.map g).foldr (· ++ ·) "") := by
  intro sel
  induction sel with
  | nil => rfl
  | cons p rest ih =>
      unfold append_lines
      rw [h p, ih]
      rfl

theorem foldr_append_contains (g : String → String) :
    ∀ (sel : List String) (p : String), p ∈ sel →
      ∃ pre post, (sel.map g).foldr (· ++ ·) "" = pre ++ (g p ++ post) := by
  intro sel
  induction sel with
  | nil => intro p hp; cases hp
  | cons a rest ih =>
      intro p hp
      rcases List.mem_cons.mp hp with h | h
      · subst h
        refine ⟨"", (rest.map g).foldr (· ++ ·) "", ?_⟩
        rw [str_empty_append]
        rfl
      · obtain ⟨pre, post, hpre⟩ := ih p h
        refine ⟨g a ++ pre, post, ?_⟩
        show g a ++ (rest.map g).foldr (· ++ ·) "" = (g a ++ pre) ++ (g p ++ post)
        rw [hpre, str_append_assoc]

theorem avg_line_encode (m : Mode) (ss : List Sample) : ∀ p : String,
    avg_line m (ss.map Sample.encode) p = .ok (avg_line_pure m ss p) := by
  intro p
  have h2 : avg_line m (ss.map Sample.encode) p =
      (match comp_vals (pollutant_key_map p) (ss.map Sample.encode) with
       | .error e => Except.error e
       | .ok vals0 =>
           match vals0.filter (fun v => !v.isNull) with
           | [] => .ok (pyUpper p ++ " (" ++ m.display ++ " avg): " ++ "N/A" ++ "<br>")
           | _ :: _ =>
               match pySum 0 (vals0.filter (fun v => !v.isNull)) with
               | .error e => Except.error e
               | .ok s =>
                   .ok (pyUpper p ++ " (" ++ m.display ++ " avg): " ++
                     pyShow (.num (s / ((vals0.filter (fun v => !v.isNull)).length : ℚ))) ++
                     "<br>")) := rfl
  rw [h2, comp_vals_encode]
  simp only [filter_not_null_map_num]
  unfold avg_line_pure
  cases h : pollutant_vals (pollutant_key_map p) ss with
  | nil => simp
  | cons q qs =>
      have hs := pySum_map_num (q :: qs) 0
      simp only [List.map_cons] at hs
      simp [hs, List.sum_cons]

theorem tooltip_null (m : Mode) (sel : List String) (name : String) :
    tooltip_html m sel name JVal.null =
      .ok (("<b>" ++ name ++ "</b><br>") ++ "No data available.<br>") := rfl

theorem tooltip_empty_list (m : Mode) (sel : List String) (name : String) :
    tooltip_html m sel name (JVal.list []) =
      .ok (("<b>" ++ name ++ "</b><br>") ++ "No data available.<br>") := rfl

theorem tooltip_current_encode (sel : List String) (name : String) (s : Sample) :
    tooltip_html Mode.current sel name (Sample.encode s) =
      .ok (("<b>" ++ name ++ "</b><br>") ++ "AQI (Overall): " ++ pyShow (JVal.num s.aqi) ++
        "<br>" ++ ((sel.map (current_line_pure s)).foldr (· ++ ·) "")) := by
  unfold tooltip_html
  rw [if_pos (show (Sample.encode s).truthy = true from rfl)]
  show (match append_lines (current_line (Sample.encode s)) sel with
    | .error e => Except.error e
    | .ok lines =>
        .ok (("<b>" ++ name ++ "</b><br>") ++ "AQI (Overall): " ++ pyShow (JVal.num s.aqi) ++
          "<br>" ++ lines)) = _
  rw [append_lines_ok (current_line (Sample.encode s)) (current_line_pure s)
    (current_line_encode s) sel]

theorem tooltip_forecast_encode (sel : List String) (name : String) (s0 : Sample)
    (tl : List Sample) :
    tooltip_html Mode.forecast sel name (JVal.list ((s0 :: tl).map Sample.encode)) =
      .ok (("<b>" ++ name ++ "</b><br>") ++
        ((sel.map (avg_line_pure Mode.forecast ((s0 :: tl).take 24))).foldr (· ++ ·) "")) := by
  unfold tooltip_html
  rw [if_pos (show (JVal.list ((s0 :: tl).map Sample.encode)).truthy = true from rfl)]
  show (match append_lines
      (avg_line Mode.forecast (((s0 :: tl).map Sample.encode).take 24)) sel with
    | .error e => Except.error e
    | .ok lines => .ok (("<b>" ++ name ++ "</b><br>") ++ lines)) = _
  rw [show ((s0 :: tl).map Sample.encode).take 24 = ((s0 :: tl).take 24).map Sample.encode
    from by rw [List.map_take]]
  rw [append_lines_ok (avg_line Mode.forecast (((s0 :: tl).take 24).map Sample.encode))
    (avg_line_pure Mode.forecast ((s0 :: tl).take 24))
    (avg_line_encode Mode.forecast ((s0 :: tl).take 24)) sel]

theorem tooltip_historic_encode (sel : List String) (name : String) (s0 : Sample)
    (tl : List Sample) :
    tooltip_html Mode.historic sel name (JVal.list ((s0 :: tl).map Sample.encode)) =
      .ok (("<b>" ++ name ++ "</b><br>") ++
        ((sel.map (avg_line_pure Mode.historic (s0 :: tl))).foldr (· ++ ·) "")) := by
  unfold tooltip_html
  rw [if_pos (show (JVal.list ((s0 :: tl).map Sample.encode)).truthy = true from rfl)]
  show (match append_lines
      (avg_line Mode.historic ((s0 :: tl).map Sample.encode)) sel with
    | .error e => Except.error e
    | .ok lines => .ok (("<b>" ++ name ++ "</b><br>") ++ lines)) = _
  rw [append_lines_ok (avg_line Mode.historic ((s0 :: tl).map Sample.encode))
    (avg_line_pure Mode.historic (s0 :: tl))
    (avg_line_encode Mode.historic (s0 :: tl)) sel]

theorem build_descriptor_ok (m : Mode) (sel : List String) (cb : String) (vmin vmax : ℚ)
    (name : String) (a : JVal) (h : WFData m a) :
    ∃ dsc, build_descriptor m sel vmin vmax (make_row m cb name a) = .ok dsc := by
  have hf : ∃ fc, fill_color vmin vmax (extract_color_val m cb a).asNum = .ok fc := by
    cases hcv : (extract_color_val m cb a).asNum with
    | none => exact ⟨.gray, rfl⟩
    | some v =>
        obtain ⟨c, hc⟩ := colormap_rgba_total vmin vmax v
        exact ⟨.rgba c, by simp [fill_color, hc]⟩
  obtain ⟨fc, hfc⟩ := hf
  have htt : ∃ tt, tooltip_html m sel name a = .ok tt := by
    cases h with
    | absent m => exact ⟨_, tooltip_null m sel name⟩
    | currentSample s => exact ⟨_, tooltip_current_encode sel name s⟩
    | forecastList ss =>
        cases ss with
        | nil => exact ⟨_, tooltip_empty_list Mode.forecast sel name⟩
        | cons s0 tl => exact ⟨_, tooltip_forecast_encode sel name s0 tl⟩
    | historicList ss =>
        cases ss with
        | nil => exact ⟨_, tooltip_empty_list Mode.historic sel name⟩
        | cons s0 tl => exact ⟨_, tooltip_historic_encode sel name s0 tl⟩
  obtain ⟨tt, htt2⟩ := htt
  exact ⟨⟨fc, tt, name⟩, by simp [build_descriptor, make_row, hfc, htt2]⟩

theorem render_all_ok (m : Mode) (sel : List String) (cb : String) (vmin vmax : ℚ) :
    ∀ rows : List (String × JVal), (∀ r ∈ rows, WFData m r.2) →
      ∃ ds, render_all m sel vmin vmax (rows.map (fun r => make_row m cb r.1 r.2)) = .ok ds ∧
        ds.length = rows.length := by
  intro rows
  induction rows with
  | nil => intro _; exact ⟨[], rfl, rfl⟩
  | cons r rest ih =>
      intro hwf
      obtain ⟨dsc, hdsc⟩ :=
        build_descriptor_ok m sel cb vmin vmax r.1 r.2 (hwf r (List.mem_cons_self r rest))
      obtain ⟨ds, hds, hlen⟩ := ih (fun x hx => hwf x (List.mem_cons_of_mem r hx))
      refine ⟨dsc :: ds, ?_, by simp [hlen]⟩
      simp only [List.map_cons]
      unfold render_all
      rw [hdsc, hds]

/-- Claim C7: the render loop emits exactly one descriptor per region
regardless of per-region data failures — for well-formed rows the loop
never raises and never drops a region (one descriptor per row, in
order); a region whose fetch failed gets the gray fallback fill colour
and the `"No data available."` detail text; and a selected pollutant
whose value is absent is rendered with the literal `"N/A"` marker, in
Current mode and in the Forecast/Historic modes alike. -/
theorem one_descriptor_per_region :
    (∀ (m : Mode) (sel : List String) (cb : String) (vmin vmax : ℚ)
        (rows : List (String × JVal)), (∀ r ∈ rows, WFData m r.2) →
        ∃ ds, render_all m sel vmin vmax (rows.map (fun r => make_row m cb r.1 r.2)) = .ok ds ∧
          ds.length = rows.length) ∧
    (∀ (m : Mode) (sel : List String) (cb : String) (vmin vmax : ℚ) (name : String),
        build_descriptor m sel vmin vmax (make_row m cb name JVal.null) =
          .ok ⟨FillColor.gray, ("<b>" ++ name ++ "</b><br>") ++ "No data available.<br>",
            name⟩) ∧
    (∀ (sel : List String) (name : String) (s : Sample) (p : String), p ∈ sel →
        s.components.lookup (pollutant_key_map p) = none →
        ∃ pre post, tooltip_html Mode.current sel name (Sample.encode s) =
          .ok (pre ++ ((pyUpper p ++ ": " ++ "N/A" ++ "<br>") ++ post))) ∧
    (∀ (m : Mode) (sel : List String) (name : String) (s0 : Sample) (tl : List Sample)
        (p : String), p ∈ sel →
        pollutant_vals (pollutant_key_map p)
          (if m = Mode.forecast then (s0 :: tl).take 24 else s0 :: tl) = [] →
        (m = Mode.forecast ∨ m = Mode.historic) →
        ∃ pre post, tooltip_html m sel name (JVal.list ((s0 :: tl).map Sample.encode)) =
          .ok (pre ++ ((pyUpper p ++ " (" ++ m.display ++ " avg): " ++ "N/A" ++ "<br>") ++
            post))) := by
  refine ⟨fun m sel cb vmin vmax rows h => render_all_ok m sel cb vmin vmax rows h,
    fun m sel cb vmin vmax name => rfl, ?_, ?_⟩
  · intro sel name s p hp hnone
    obtain ⟨pre0, post0, hpre⟩ := foldr_append_contains (current_line_pure s) sel p hp
    have hline : current_line_pure s p = pyUpper p ++ ": " ++ "N/A" ++ "<br>" := by
      unfold current_line_pure
      rw [hnone]
    refine ⟨("<b>" ++ name ++ "</b><br>") ++ "AQI (Overall): " ++ pyShow (JVal.num s.aqi) ++
      "<br>" ++ pre0, post0, ?_⟩
    rw [tooltip_current_encode, hpre, hline]
    simp only [str_append_assoc]
  · intro m sel name s0 tl p hp hemp hm
    rcases hm with hm | hm
    · subst hm
      rw [if_pos rfl] at hemp
      obtain ⟨pre0, post0, hpre⟩ :=
        foldr_append_contains (avg_line_pure Mode.forecast ((s0 :: tl).take 24)) sel p hp
      have hline : avg_line_pure Mode.forecast ((s0 :: tl).take 24) p =
          pyUpper p ++ " (" ++ Mode.forecast.display ++ " avg): " ++ "N/A" ++ "<br>" := by
        unfold avg_line_pure
        rw [hemp]
        rfl
      refine ⟨("<b>" ++ name ++ "</b><br>") ++ pre0, post0, ?_⟩
      rw [tooltip_forecast_encode, hpre, hline]
      simp only [str_append_assoc]
    · subst hm
      rw [if_neg (by decide)] at hemp
      obtain ⟨pre0, post0, hpre⟩ :=
        foldr_append_contains (avg_line_pure Mode.historic (s0 :: tl)) sel p hp
      have hline : avg_line_pure Mode.historic (s0 :: tl) p =
          pyUpper p ++ " (" ++ Mode.historic.display ++ " avg): " ++ "N/A" ++ "<br>" := by
        unfold avg_line_pure
        rw [hemp]
        rfl
      refine ⟨("<b>" ++ name ++ "</b><br>") ++ pre0, post0, ?_⟩
      rw [tooltip_historic_encode, hpre, hline]
      simp only [str_append_assoc]

theorem one_descriptor_per_region_witness :
    build_descriptor Mode.current ["pm25"] 0 1
        (make_row Mode.current ("pm25") ("A") JVal.null) =
      .ok ⟨FillColor.gray, ("<b>" ++ "A" ++ "</b><br>") ++ "No data available.<br>", "A"⟩ ∧
    (render_all Mode.current ["pm25"] 0 1
        ([("A", JVal.null), ("B", JVal.null)].map
          (fun r => make_row Mode.current ("pm25") r.1 r.2))).isOk = true := by
  constructor
  · exact one_descriptor_per_region.2.1 Mode.current ["pm25"] ("pm25") 0 1 ("A")
  · obtain ⟨ds, hds, _⟩ := one_descriptor_per_region.1 Mode.current ["pm25"] ("pm25") 0 1
      [("A", JVal.null), ("B", JVal.null)]
      (by
        intro r hr
        rcases List.mem_cons.mp hr with h | h
        · rw [h]; exact WFData.absent Mode.current
        · rw [List.mem_singleton.mp h]; exact WFData.absent Mode.current)
    rw [hds]
    rfl

theorem nearest_lookup_self_consistency_witness :
    nearest_region sq_dist [((0 : ℚ), (0 : ℚ)), ((3 : ℚ), (4 : ℚ))] ((3 : ℚ), (4 : ℚ)) =
      some 1 :=
  nearest_lookup_self_consistency.1 sq_dist [(0, 0), (3, 4)] ⟨1, by decide⟩
    (show sq_dist (3, 4) (3, 4) = 0 by norm_num [sq_dist])
    (by
      intro k hk
      fin_cases k
      · show (0 : ℚ) < sq_dist (3, 4) (0, 0)
        norm_num [sq_dist]
      · exact absurd rfl hk)

end AirQuality
